import Mathlib

/-!
Verification of the sector geometry engine of `app_csv_visualizer.py`.

The engine is the single pure function `get_sector_polygon(lat, lon,
azimuth, beamwidth, radius_meters)`.  We embed it over exact real
arithmetic: Python floats become `ℝ`, `math.sin`/`cos`/`asin`/`atan2`
become their real counterparts, Python `int()` truncation becomes
`pyInt`, and the returned list of `(lat, lon)` pairs becomes
`List (ℝ × ℝ)`.
-/

noncomputable section

open Real

/-- Python `int()` applied to a float: truncation toward zero. -/
def pyInt (x : ℝ) : ℤ := if 0 ≤ x then ⌊x⌋ else ⌈x⌉

/-- Line 44 of the source:
`num_points = int(beamwidth) if beamwidth > 10 else 10`. -/
def raw_num_points (beamwidth : ℝ) : ℤ :=
  if 10 < beamwidth then pyInt beamwidth else 10

/-- Line 45 of the source: `if num_points < 3: num_points = 3`. -/
def num_points (beamwidth : ℝ) : ℤ :=
  if raw_num_points beamwidth < 3 then 3 else raw_num_points beamwidth

/-- Python `math.radians`. -/
def radians (x : ℝ) : ℝ := x * Real.pi / 180

/-- Python `math.degrees`. -/
def degrees (x : ℝ) : ℝ := x * 180 / Real.pi

/-- Python `math.atan2 y x`: the angle of the point `(x, y)`,
branching on the signs of the arguments (`atan2(0, 0) = 0`). -/
def atan2 (y x : ℝ) : ℝ :=
  if 0 < x then Real.arctan (y / x)
  else if x < 0 ∧ 0 ≤ y then Real.arctan (y / x) + Real.pi
  else if x < 0 ∧ y < 0 then Real.arctan (y / x) - Real.pi
  else if x = 0 ∧ 0 < y then Real.pi / 2
  else if x = 0 ∧ y < 0 then -(Real.pi / 2)
  else 0

/-- The argument handed to `math.asin` on line 69 of the source. -/
def asin_arg (phi1 delta theta : ℝ) : ℝ :=
  Real.sin phi1 * Real.cos delta + Real.cos phi1 * Real.sin delta * Real.cos theta

/-- Lines 64-73 of the source: destination point at bearing `angle`
(degrees) and distance `radius_meters` from `(lat, lon)`, via the
spherical forward-geodesic formula with `R = 6378137.0`. -/
def dest_point (lat lon radius_meters angle : ℝ) : ℝ × ℝ :=
  let R : ℝ := 6378137.0
  let theta := radians angle
  let delta := radius_meters / R
  let phi1 := radians lat
  let lam1 := radians lon
  let phi2 := Real.arcsin (asin_arg phi1 delta theta)
  let lam2 := lam1 + atan2 (Real.sin theta * Real.sin delta * Real.cos phi1)
    (Real.cos delta - Real.sin phi1 * Real.sin phi2)
  (degrees phi2, degrees lam2)

/-- Line 47 of the source: the list of `num_points` sampled bearings,
`start_angle + (end_angle - start_angle) * i / (num_points - 1)`. -/
def angles (azimuth beamwidth : ℝ) : List ℝ :=
  let half_bw := beamwidth / 2
  let start_angle := azimuth - half_bw
  let end_angle := azimuth + half_bw
  let n := (num_points beamwidth).toNat
  (List.range n).map
    (fun i : ℕ => start_angle + (end_angle - start_angle) * (i : ℝ) / ((n : ℝ) - 1))

/-- Lines 21-79 of the source: the full sector polygon, center first,
then one destination point per sampled bearing, then the center again. -/
def get_sector_polygon (lat lon azimuth beamwidth radius_meters : ℝ) :
    List (ℝ × ℝ) :=
  (lat, lon) ::
    ((angles azimuth beamwidth).map (fun a => dest_point lat lon radius_meters a)
      ++ [(lat, lon)])

/-- The point-count formula as the spec words it: `n = max(3,
round(beamwidth))` when `beamwidth > 10`, else `n = 10`, floored at 3.
Stated for comparison with `num_points`, which follows the source. -/
def spec_num_points (beamwidth : ℝ) : ℤ :=
  if 10 < beamwidth then max 3 (round beamwidth) else max 3 10

/-- The spherical forward-geodesic destination as the spec words it:
`δ = radiusMeters / R` with `R = 6378137.0`,
`φ2 = asin(sin φ1 cos δ + cos φ1 sin δ cos θ)`,
`λ2 = λ1 + atan2(sin θ sin δ cos φ1, cos δ - sin φ1 sin φ2)`,
both converted back to degrees with no longitude renormalization. -/
def spec_forward_geodesic (lat lon radiusMeters bearing : ℝ) : ℝ × ℝ :=
  let R : ℝ := 6378137.0
  let θ := radians bearing
  let δ := radiusMeters / R
  let φ1 := radians lat
  let lon1 := radians lon
  let φ2 := Real.arcsin (Real.sin φ1 * Real.cos δ + Real.cos φ1 * Real.sin δ * Real.cos θ)
  let lon2 := lon1 + atan2 (Real.sin θ * Real.sin δ * Real.cos φ1)
    (Real.cos δ - Real.sin φ1 * Real.sin φ2)
  (degrees φ2, degrees lon2)

/-! ### Basic structural lemmas -/

lemma ten_le_raw_num_points (bw : ℝ) : 10 ≤ raw_num_points bw := by
  unfold raw_num_points pyInt
  by_cases h : 10 < bw
  · have h0 : (0 : ℝ) ≤ bw := by linarith
    simp only [h, if_true, h0]
    exact Int.le_floor.mpr (by exact_mod_cast h.le)
  · simp [h]

lemma num_points_eq_raw (bw : ℝ) : num_points bw = raw_num_points bw := by
  unfold num_points
  have := ten_le_raw_num_points bw
  rw [if_neg (by omega)]

lemma ten_le_num_points (bw : ℝ) : 10 ≤ num_points bw := by
  rw [num_points_eq_raw]; exact ten_le_raw_num_points bw

lemma ten_le_num_points_toNat (bw : ℝ) : 10 ≤ (num_points bw).toNat := by
  have := ten_le_num_points bw; omega

lemma angles_length (az bw : ℝ) :
    (angles az bw).length = (num_points bw).toNat := by
  unfold angles
  rw [List.length_map, List.length_range]

lemma polygon_length (lat lon az bw r : ℝ) :
    (get_sector_polygon lat lon az bw r).length = (num_points bw).toNat + 2 := by
  unfold get_sector_polygon
  rw [List.length_cons, List.length_append, List.length_map, angles_length]
  rfl

lemma angles_getElem (az bw : ℝ) (i : ℕ) (h : i < (num_points bw).toNat) :
    (angles az bw)[i]? =
      some ((az - bw / 2) + ((az + bw / 2) - (az - bw / 2)) * (i : ℝ) /
        (((num_points bw).toNat : ℝ) - 1)) := by
  unfold angles
  rw [List.getElem?_map, List.getElem?_range h]
  rfl

lemma num_points_sixty : num_points 60 = 60 := by
  rw [num_points_eq_raw]
  unfold raw_num_points pyInt
  norm_num

lemma num_points_eq_max (bw : ℝ) :
    num_points bw = max 3 (if 10 < bw then pyInt bw else 10) := by
  have h := ten_le_raw_num_points bw
  rw [num_points_eq_raw]
  unfold raw_num_points at h ⊢
  omega

/-! ### Claim theorems -/

/-- C1, counterexample: called with `radius_meters = -1 ≤ 0` — an input
on which the claim says the call fails with `InvalidGeometryError` —
`get_sector_polygon` succeeds and returns a full 62-point polygon.  The
source contains no validation and no `InvalidGeometryError` at all. -/
theorem get_sector_polygon_no_error_on_nonpositive_radius :
    (get_sector_polygon 0 0 0 60 (-1)).length = 62 := by
  rw [polygon_length, num_points_sixty]
  rfl

/-- C1, amended: `get_sector_polygon` performs no input validation: on
every input with `radiusMeters ≤ 0`, latitude outside `[-90, 90]`,
longitude outside `[-180, 180]`, or `beamwidth ≤ 0`, the call still
succeeds and returns a complete polygon starting at the center; no
`InvalidGeometryError` (or any other failure mode) exists. -/
theorem get_sector_polygon_total_on_invalid_inputs (lat lon az bw r : ℝ)
    (_invalid : r ≤ 0 ∨ 90 < |lat| ∨ 180 < |lon| ∨ bw ≤ 0) :
    (get_sector_polygon lat lon az bw r).length = (num_points bw).toNat + 2 ∧
    (get_sector_polygon lat lon az bw r).head? = some (lat, lon) := by
  exact ⟨polygon_length lat lon az bw r, rfl⟩

/-- Witness for C1's amended theorem at `(0, 0, 0, 60, -1)`. -/
theorem get_sector_polygon_total_on_invalid_inputs_witness :
    (get_sector_polygon 0 0 0 60 (-1)).length = (num_points 60).toNat + 2 ∧
    (get_sector_polygon 0 0 0 60 (-1)).head? = some (0, 0) :=
  get_sector_polygon_total_on_invalid_inputs 0 0 0 60 (-1)
    (Or.inl (by norm_num))

/-- C2, counterexample: at `beamwidth = 10.7` the polygon has
`int(10.7) + 2 = 12` points, but the claim's formula
`n = max(3, round(beamwidth))` predicts `11 + 2 = 13` points. -/
theorem polygon_length_differs_from_round_formula :
    (get_sector_polygon 0 0 0 (107 / 10) 1000).length ≠
      (spec_num_points (107 / 10)).toNat + 2 := by
  rw [polygon_length]
  have h1 : num_points (107 / 10 : ℝ) = 10 := by
    rw [num_points_eq_raw]
    unfold raw_num_points pyInt
    rw [if_pos (by norm_num), if_pos (by norm_num), Int.floor_eq_iff]
    constructor <;> norm_num
  have h2 : spec_num_points (107 / 10 : ℝ) = 11 := by
    unfold spec_num_points
    rw [if_pos (by norm_num), round_eq,
      show ⌊(107 / 10 : ℝ) + 1 / 2⌋ = 11 from by
        rw [Int.floor_eq_iff]; constructor <;> norm_num]
    rfl
  rw [h1, h2]
  decide

/-- C2, amended: for every input the returned polygon has exactly
`n + 2` points where `n = max(3, int(beamwidth))` when `beamwidth > 10`
(Python `int` truncation toward zero, not rounding) and
`n = max(3, 10) = 10` otherwise. -/
theorem polygon_length_eq_trunc_formula (lat lon az bw r : ℝ) :
    (get_sector_polygon lat lon az bw r).length =
      (max 3 (if 10 < bw then pyInt bw else 10)).toNat + 2 := by
  rw [polygon_length, num_points_eq_max]

/-- C3: every arc point of `get_sector_polygon` is obtained from its
sampled bearing by exactly the spec's spherical forward-geodesic
formula with `R = 6378137.0`: the polygon is the center, the image of
the sampled bearings under `spec_forward_geodesic`, and the center
again, with the raw `atan2` longitude kept unrenormalized. -/
theorem get_sector_polygon_matches_spec_geodesic (lat lon az bw r : ℝ) :
    get_sector_polygon lat lon az bw r =
      (lat, lon) ::
        ((angles az bw).map (spec_forward_geodesic lat lon r) ++ [(lat, lon)]) := rfl

/-- C4: every polygon produced by `get_sector_polygon`, for any real
input, has at least 5 points, and its first and last points are both
exactly the center `(lat, lon)`. -/
theorem get_sector_polygon_closed (lat lon az bw r : ℝ) :
    5 ≤ (get_sector_polygon lat lon az bw r).length ∧
    (get_sector_polygon lat lon az bw r).head? = some (lat, lon) ∧
    (get_sector_polygon lat lon az bw r).getLast? = some (lat, lon) := by
  refine ⟨?_, rfl, ?_⟩
  · rw [polygon_length]
    have := ten_le_num_points bw
    omega
  · unfold get_sector_polygon
    rw [← List.cons_append, List.getLast?_concat]

/-- C8: `get_sector_polygon` is deterministic — two calls whose five
arguments agree pairwise return identical polygons; the output depends
on nothing but the arguments. -/
theorem get_sector_polygon_deterministic
    (a₁ a₂ a₃ a₄ a₅ b₁ b₂ b₃ b₄ b₅ : ℝ)
    (h₁ : a₁ = b₁) (h₂ : a₂ = b₂) (h₃ : a₃ = b₃) (h₄ : a₄ = b₄) (h₅ : a₅ = b₅) :
    get_sector_polygon a₁ a₂ a₃ a₄ a₅ = get_sector_polygon b₁ b₂ b₃ b₄ b₅ := by
  rw [h₁, h₂, h₃, h₄, h₅]

/-- Witness for C8's theorem at `(51.5, -0.12, 90, 5, 500)`. -/
theorem get_sector_polygon_deterministic_witness :
    get_sector_polygon 51.5 (-0.12) 90 5 500 =
      get_sector_polygon 51.5 (-0.12) 90 5 500 :=
  get_sector_polygon_deterministic 51.5 (-0.12) 90 5 500 51.5 (-0.12) 90 5 500
    rfl rfl rfl rfl rfl

/-- C10: for every input the arc sample count is at least 10 — when
`beamwidth > 10` the truncation `int(beamwidth)` is already `≥ 10`,
otherwise the count is the fixed 10 — so the floor-to-3 branch on line
45 never changes the value, and every returned polygon has at least 12
points, strictly more than the 5-point minimum. -/
theorem num_points_ge_ten_floor_branch_dead (lat lon az bw r : ℝ) :
    10 ≤ raw_num_points bw ∧ num_points bw = raw_num_points bw ∧
    12 ≤ (get_sector_polygon lat lon az bw r).length := by
  refine ⟨ten_le_raw_num_points bw, num_points_eq_raw bw, ?_⟩
  rw [polygon_length]
  have := ten_le_num_points bw
  omega

/-- C5: `get_sector_polygon` samples exactly `num_points` bearings,
the i-th being `startAngle + (endAngle - startAngle) * i / (n - 1)`
with `startAngle = azimuth - beamwidth/2` and
`endAngle = azimuth + beamwidth/2`, so both endpoints are included,
and the arc points appear in the polygon in that angular order between
the two center points. -/
theorem sector_bearings_evenly_spaced (lat lon az bw r : ℝ) :
    (angles az bw).length = (num_points bw).toNat ∧
    (∀ i : ℕ, i < (num_points bw).toNat →
      (angles az bw)[i]? = some ((az - bw / 2) +
        ((az + bw / 2) - (az - bw / 2)) * (i : ℝ) /
          (((num_points bw).toNat : ℝ) - 1))) ∧
    (angles az bw)[0]? = some (az - bw / 2) ∧
    (angles az bw)[(num_points bw).toNat - 1]? = some (az + bw / 2) ∧
    get_sector_polygon lat lon az bw r =
      (lat, lon) ::
        ((angles az bw).map (fun a => dest_point lat lon r a) ++ [(lat, lon)]) := by
  have hn := ten_le_num_points_toNat bw
  refine ⟨angles_length az bw, fun i hi => angles_getElem az bw i hi, ?_, ?_, rfl⟩
  · rw [angles_getElem az bw 0 (by omega)]
    norm_num
  · rw [angles_getElem az bw ((num_points bw).toNat - 1) (by omega)]
    congr 1
    rw [Nat.cast_sub (by omega : 1 ≤ (num_points bw).toNat), Nat.cast_one]
    have h2 : (((num_points bw).toNat : ℝ)) - 1 ≠ 0 := by
      have h3 : (10 : ℝ) ≤ ((num_points bw).toNat : ℝ) := by exact_mod_cast hn
      linarith
    field_simp
    ring

/-- Witness for C5's theorem: at `(0, 0, 0, 60, 1000)` the 6th sampled
bearing matches the even-spacing formula. -/
theorem sector_bearings_evenly_spaced_witness :
    (angles 0 60)[5]? = some ((0 - 60 / 2) +
      ((0 + 60 / 2) - (0 - 60 / 2)) * (5 : ℝ) /
        (((num_points 60).toNat : ℝ) - 1)) :=
  (sector_bearings_evenly_spaced 0 0 0 60 1000).2.1 5
    (by rw [num_points_sixty]; norm_num)

lemma radians_add_360 (a : ℝ) : radians (a + 360) = radians a + 2 * Real.pi := by
  unfold radians; ring

lemma asin_arg_add_two_pi (p d t : ℝ) :
    asin_arg p d (t + 2 * Real.pi) = asin_arg p d t := by
  unfold asin_arg
  rw [Real.cos_add_two_pi]

lemma dest_point_add_360 (lat lon r a : ℝ) :
    dest_point lat lon r (a + 360) = dest_point lat lon r a := by
  simp only [dest_point, radians_add_360, Real.sin_add_two_pi, Real.cos_add_two_pi,
    asin_arg_add_two_pi]

/-- C7: shifting the azimuth by 360 degrees leaves the output of
`get_sector_polygon` unchanged (in exact real arithmetic), so
out-of-range or negative azimuths behave as azimuth mod 360. -/
theorem get_sector_polygon_azimuth_mod_360 (lat lon az bw r : ℝ) :
    get_sector_polygon lat lon (az + 360) bw r =
      get_sector_polygon lat lon az bw r := by
  unfold get_sector_polygon
  congr 1
  congr 1
  unfold angles
  simp only [List.map_map]
  apply List.map_congr_left
  intro i _
  simp only [Function.comp_apply]
  rw [show az + 360 - bw / 2 + (az + 360 + bw / 2 - (az + 360 - bw / 2)) * (i : ℝ) /
        (((num_points bw).toNat : ℝ) - 1)
      = (az - bw / 2 + (az + bw / 2 - (az - bw / 2)) * (i : ℝ) /
        (((num_points bw).toNat : ℝ) - 1)) + 360 from by ring,
    dest_point_add_360]

/-- C9: for every real input, the argument passed to `asin` lies in
`[-1, 1]`, so `get_sector_polygon` is total in exact real arithmetic:
it never leaves the domain of `asin` and always returns a (nonempty)
polygon. -/
theorem asin_argument_in_unit_interval :
    (∀ phi1 delta theta : ℝ,
      -1 ≤ asin_arg phi1 delta theta ∧ asin_arg phi1 delta theta ≤ 1) ∧
    (∀ lat lon az bw r : ℝ, 0 < (get_sector_polygon lat lon az bw r).length) := by
  constructor
  · intro p d t
    have h1 := Real.sin_sq_add_cos_sq p
    have h2 := Real.sin_sq_add_cos_sq d
    have h3 := Real.cos_sq_le_one t
    have h4 := sq_nonneg (Real.sin p * Real.sin d * Real.cos t - Real.cos p * Real.cos d)
    have h5 : (0 : ℝ) ≤ Real.sin d ^ 2 * (1 - Real.cos t ^ 2) :=
      mul_nonneg (sq_nonneg _) (sub_nonneg.mpr h3)
    have hA2 : (Real.sin p * Real.cos d + Real.cos p * Real.sin d * Real.cos t) ^ 2 +
        (Real.sin p * Real.sin d * Real.cos t - Real.cos p * Real.cos d) ^ 2 =
        (Real.sin p ^ 2 + Real.cos p ^ 2) *
          (Real.cos d ^ 2 + Real.sin d ^ 2 * Real.cos t ^ 2) := by
      ring
    rw [h1, one_mul] at hA2
    have key : (Real.sin p * Real.cos d + Real.cos p * Real.sin d * Real.cos t) ^ 2 ≤ 1 := by
      nlinarith [h4, h2, h5, hA2]
    unfold asin_arg
    constructor
    · nlinarith [key, sq_nonneg (Real.sin p * Real.cos d + Real.cos p * Real.sin d * Real.cos t + 1)]
    · nlinarith [key, sq_nonneg (Real.sin p * Real.cos d + Real.cos p * Real.sin d * Real.cos t - 1)]
  · intro lat lon az bw r
    rw [polygon_length]
    omega

lemma atan2_zero_of_pos (x : ℝ) (hx : 0 < x) : atan2 0 x = 0 := by
  unfold atan2
  rw [if_pos hx, zero_div, Real.arctan_zero]

/-- C6, counterexample: for center `(0, 0)`, azimuth `0`, beamwidth
`60`, the engine samples `n = 60` bearings `-30 + 60*i/59`; none of
them equals `0`, so the polygon has no arc point at bearing `0` — the
"midpoint arc point at bearing 0" the claim speaks of does not exist. -/
theorem no_sampled_bearing_is_zero : (0 : ℝ) ∉ angles 0 60 := by
  intro hmem
  unfold angles at hmem
  rw [List.mem_map] at hmem
  obtain ⟨i, hi, hf⟩ := hmem
  rw [List.mem_range, num_points_sixty] at hi
  rw [num_points_sixty] at hf
  have h60 : (((60 : ℤ).toNat : ℕ) : ℝ) = 60 := by simp
  rw [h60] at hf
  have h2 : (120 : ℝ) * (i : ℕ) = 3540 := by linarith
  have h3 : 120 * i = 3540 := by exact_mod_cast h2
  omega

/-- C6, amended: for center `(0, 0)`, azimuth `0`, beamwidth `60`,
radius `1000`, the engine samples `n = 60` bearings spanning exactly
`-30` to `+30` degrees; no sampled bearing equals `0` (60 is even), but
the destination the engine's formula assigns to bearing `0` lies due
north of the center: longitude exactly `0` and latitude
`degrees (1000 / 6378137)`, which is approximately `0.00899` (it lies
strictly between `0.00898` and `0.00899`). -/
theorem sector_0_60_1000_bearings_and_due_north :
    (num_points 60).toNat = 60 ∧
    (angles 0 60)[0]? = some (-30 : ℝ) ∧
    (angles 0 60)[59]? = some (30 : ℝ) ∧
    dest_point 0 0 1000 0 = (degrees (1000 / 6378137), 0) ∧
    0.00898 < degrees (1000 / 6378137) ∧ degrees (1000 / 6378137) < 0.00899 := by
  have hδpos : (0 : ℝ) < 1000 / 6378137 := by norm_num
  have hπ := Real.pi_gt_d6
  have hδlt : (1000 / 6378137 : ℝ) < Real.pi / 2 := by nlinarith
  have h60 : (((60 : ℤ).toNat : ℕ) : ℝ) = 60 := by simp
  refine ⟨by rw [num_points_sixty]; rfl, ?_, ?_, ?_, ?_, ?_⟩
  · rw [angles_getElem 0 60 0 (by rw [num_points_sixty]; decide)]
    norm_num
  · rw [angles_getElem 0 60 59 (by rw [num_points_sixty]; decide)]
    rw [num_points_sixty, h60]
    norm_num
  · simp only [dest_point, asin_arg, radians, degrees, zero_mul, zero_div,
      Real.sin_zero, Real.cos_zero, one_mul, mul_one, mul_zero, zero_add,
      add_zero, sub_zero]
    have hcos : (0 : ℝ) < Real.cos (1000 / 6378137) := by
      apply Real.cos_pos_of_mem_Ioo
      constructor
      · nlinarith
      · exact hδlt
    have harg : Real.arcsin (Real.sin (1000 / 6378137 : ℝ)) = 1000 / 6378137 := by
      apply Real.arcsin_sin
      · nlinarith
      · nlinarith
    norm_num
    constructor
    · rw [harg]
      ring
    · exact Or.inl (atan2_zero_of_pos _ hcos)
  · unfold degrees
    rw [lt_div_iff₀ Real.pi_pos]
    nlinarith [Real.pi_lt_d6]
  · unfold degrees
    rw [div_lt_iff₀ Real.pi_pos]
    nlinarith
